import Mathlib

/-!
Shallow embedding of the public-policy-feedback-api query engine
(`src/api.py`): an in-memory dataset of survey records, case-insensitive
equality filters, support-rate aggregation and per-column grouping, exposed
through three read-only endpoints (`/support`, `/support_by`, `/grouped`).

Modelling conventions:
* a pandas DataFrame of survey rows is a `List Record`;
* Python floats are modelled as exact rationals `ℚ`; `round(x, 3)` is
  modelled as `round3` (round half up on exact rationals — Python rounds
  half to even on binary floats, but no claim here evaluates at a tie);
* `str.casefold()` is modelled as character-wise lowercasing `casefold`
  (adequate for the ASCII categorical values of this dataset);
* a FastAPI handler that may `raise HTTPException` is a function into
  `Except HTTPError _`.
-/

/-- One survey respondent row of the dataset
(columns of `data/policy_survey_data.csv`). -/
structure Record where
  gender : String
  race : String
  age_group : String
  education : String
  income : String
  policy_support : ℚ
deriving DecidableEq, Repr

/-- The optional demographic query parameters of `GET /support_by`
(`gender`, `race`, `age_group`, `education`, `income`), each `Optional[str]`
defaulting to `None`. -/
structure FilterSpec where
  gender : Option String := none
  race : Option String := none
  age_group : Option String := none
  education : Option String := none
  income : Option String := none
deriving DecidableEq, Repr

/-- An `HTTPException(status_code, detail)` raised by a handler. -/
structure HTTPError where
  status_code : ℕ
  detail : String
deriving DecidableEq, Repr

/-- The JSON body returned by `/support` and `/support_by`:
`\x7b"count": int, "support_rate": float\x7d`. -/
structure AggregateResult where
  count : ℕ
  support_rate : ℚ
deriving DecidableEq, Repr

/-- One element of the list returned by `/grouped`: a dict whose first key is
the grouping column's own name (field `key` records that dict key) mapped to
the group's value, then `"count"` and `"support_rate"`. -/
structure GroupEntry where
  key : String
  group_value : String
  count : ℕ
  support_rate : ℚ
deriving DecidableEq, Repr

/-- Python `str.casefold()`, modelled as character-wise lowercasing. -/
def casefold (s : String) : String :=
  ⟨s.data.map Char.toLower⟩

/-- Python `round(x, 3)` on the exact rational value. -/
def round3 (x : ℚ) : ℚ :=
  (round (x * 1000) : ℤ) / 1000

/-- `calculate_support_rate(sub_df)`: mean of the `policy_support` column,
`0.0` when the frame is empty. -/
def calculate_support_rate (sub_df : List Record) : ℚ :=
  if sub_df = [] then 0
  else (sub_df.map Record.policy_support).sum / sub_df.length

/-- One `if param: sub_df = sub_df[sub_df[col].str.casefold() == param.casefold()]`
step of `support_by`: Python truthiness makes `None` and `""` skip the filter. -/
def filterStep (get : Record → String) (param : Option String)
    (sub_df : List Record) : List Record :=
  match param with
  | none => sub_df
  | some v =>
    if v = "" then sub_df
    else sub_df.filter (fun r => casefold (get r) == casefold v)

/-- The filter cascade of `support_by`, applied in source order:
gender, race, age_group, education, income. -/
def applyFilter (df : List Record) (spec : FilterSpec) : List Record :=
  filterStep Record.income spec.income
    (filterStep Record.education spec.education
      (filterStep Record.age_group spec.age_group
        (filterStep Record.race spec.race
          (filterStep Record.gender spec.gender df))))

/-- `GET /support` (`overall_support`). -/
def overall_support (df : List Record) : AggregateResult :=
  { count := df.length, support_rate := round3 (calculate_support_rate df) }

/-- `GET /support_by` (`support_by`): filter, 404 when no row matches,
otherwise count and rounded rate of the subset. -/
def support_by (df : List Record) (spec : FilterSpec) :
    Except HTTPError AggregateResult :=
  let sub_df := applyFilter df spec
  if sub_df = [] then
    .error { status_code := 404, detail := "No respondents match the given filters." }
  else
    .ok { count := sub_df.length, support_rate := round3 (calculate_support_rate sub_df) }

/-- The allow-list `valid_columns` of `support_grouped`. -/
def valid_columns : List String :=
  ["gender", "race", "age_group", "education", "income"]

/-- Column accessor for a valid `group_by` name. -/
def columnGet : String → Option (Record → String)
  | "gender" => some Record.gender
  | "race" => some Record.race
  | "age_group" => some Record.age_group
  | "education" => some Record.education
  | "income" => some Record.income
  | _ => none

/-- The pandas pipeline
`df.groupby(group_by)["policy_support"].agg(["count","mean"])` followed by
rounding: group keys in ascending sorted order (pandas `groupby` default
`sort=True`), one entry per distinct value, each entry keyed by the column's
own name after `reset_index`. `mkGroupEntry` builds the output row of one
group; `groupedEntries` is the whole pipeline. -/
def mkGroupEntry (df : List Record) (name : String) (get : Record → String)
    (v : String) : GroupEntry :=
  { key := name
    group_value := v
    count := (df.filter (fun r => get r == v)).length
    support_rate := round3 (calculate_support_rate (df.filter (fun r => get r == v))) }

def groupedEntries (df : List Record) (name : String) (get : Record → String) :
    List GroupEntry :=
  (((df.map get).dedup).insertionSort (· ≤ ·)).map (mkGroupEntry df name get)

/-- `GET /grouped` (`support_grouped`): 400 on a column outside the
allow-list, otherwise the grouped counts and rounded rates. The membership
test `group_by not in valid_columns` coincides with `columnGet` returning
`none` (lemma `columnGet_eq_none_iff` below), so the handler is modelled by
dispatching on `columnGet`. -/
def support_grouped (df : List Record) (group_by : String) :
    Except HTTPError (List GroupEntry) :=
  match columnGet group_by with
  | some get => .ok (groupedEntries df group_by get)
  | none =>
    .error { status_code := 400
             detail := "Invalid group_by. Must be one of the allowed columns." }

theorem columnGet_eq_none_iff (c : String) :
    columnGet c = none ↔ c ∉ valid_columns := by
  constructor
  · intro h hc
    fin_cases hc <;> simp [columnGet] at h
  · intro h
    unfold columnGet
    split <;> simp_all [valid_columns]

/-! ### Sample data shared by the concrete witnesses -/

/-- A sample supporting respondent. -/
def sampleF : Record :=
  { gender := "Female", race := "Asian", age_group := "18-29"
    education := "HS", income := "low", policy_support := 1 }

/-- A sample non-supporting respondent. -/
def sampleF0 : Record :=
  { sampleF with policy_support := 0 }

/-- A sample male supporting respondent. -/
def sampleM : Record :=
  { sampleF with gender := "Male" }

/-- A sample four-row dataset (supports 1,0,1,1; genders Female, Female, Male, male). -/
def sampleD : List Record :=
  [sampleF, sampleF0, sampleM, { sampleF with gender := "male", race := "White" }]

/-! ### Arithmetic helper lemmas about `round3` and `calculate_support_rate` -/

theorem round_rat_mono {x y : ℚ} (h : x ≤ y) : round x ≤ round y := by
  rw [round_eq, round_eq]
  exact Int.floor_le_floor (by linarith)

theorem round3_nonneg {x : ℚ} (h : 0 ≤ x) : 0 ≤ round3 x := by
  unfold round3
  have h1 : (0 : ℤ) ≤ round (x * 1000) := by
    have := round_rat_mono (mul_nonneg h (by norm_num) : (0:ℚ) ≤ x * 1000)
    simpa using this
  positivity

theorem round3_le_one {x : ℚ} (h : x ≤ 1) : round3 x ≤ 1 := by
  unfold round3
  have h1 : round (x * 1000) ≤ 1000 := by
    have hx : x * 1000 ≤ (1000 : ℚ) := by linarith
    have := round_rat_mono hx
    simpa using this
  rw [div_le_one (by norm_num)]
  exact_mod_cast h1

theorem round3_zero : round3 0 = 0 := by
  simp [round3]

/-- All support indicators of the dataset are 0/1 (the spec invariant
"support indicator coercible to 0 or 1"). -/
def supportsBinary (D : List Record) : Prop :=
  ∀ r ∈ D, r.policy_support = 0 ∨ r.policy_support = 1

instance (D : List Record) : Decidable (supportsBinary D) := by
  unfold supportsBinary
  infer_instance

theorem sum_policy_nonneg (D : List Record) (h : supportsBinary D) :
    0 ≤ (D.map Record.policy_support).sum := by
  induction D with
  | nil => simp
  | cons a l ih =>
    have ha : 0 ≤ a.policy_support := by
      rcases h a (by simp) with h0 | h1
      · rw [h0]
      · rw [h1]; norm_num
    have hl : supportsBinary l := fun r hr => h r (List.mem_cons_of_mem a hr)
    have hsum := ih hl
    simp only [List.map_cons, List.sum_cons]
    linarith

theorem sum_policy_le_length (D : List Record) (h : supportsBinary D) :
    (D.map Record.policy_support).sum ≤ (D.length : ℚ) := by
  induction D with
  | nil => simp
  | cons a l ih =>
    have ha : a.policy_support ≤ 1 := by
      rcases h a (by simp) with h0 | h1
      · rw [h0]; norm_num
      · rw [h1]
    have hl : supportsBinary l := fun r hr => h r (List.mem_cons_of_mem a hr)
    have hsum := ih hl
    simp only [List.map_cons, List.sum_cons, List.length_cons]
    push_cast
    linarith

theorem calculate_support_rate_nonneg (D : List Record) (h : supportsBinary D) :
    0 ≤ calculate_support_rate D := by
  unfold calculate_support_rate
  split
  · exact le_refl 0
  · exact div_nonneg (sum_policy_nonneg D h) (by positivity)

theorem calculate_support_rate_le_one (D : List Record) (h : supportsBinary D) :
    calculate_support_rate D ≤ 1 := by
  unfold calculate_support_rate
  split
  · norm_num
  · rename_i hne
    have hlen : 0 < (D.length : ℚ) := by
      have : D.length ≠ 0 := fun h0 => hne (List.length_eq_zero.mp h0)
      positivity
    rw [div_le_one hlen]
    exact sum_policy_le_length D h

/-! ### Filter Engine lemmas -/

theorem casefold_eq_empty_iff (s : String) : casefold s = "" ↔ s = "" := by
  cases s with
  | mk data =>
    simp [casefold, String.ext_iff]

theorem mem_of_mem_filterStep {r : Record} {get : Record → String}
    {p : Option String} {l : List Record}
    (h : r ∈ filterStep get p l) : r ∈ l := by
  cases p with
  | none => exact h
  | some v =>
    simp only [filterStep] at h
    by_cases hv : v = ""
    · rw [if_pos hv] at h; exact h
    · rw [if_neg hv] at h
      exact (List.mem_filter.mp h).1

theorem mem_of_mem_applyFilter {r : Record} {D : List Record} {spec : FilterSpec}
    (h : r ∈ applyFilter D spec) : r ∈ D := by
  unfold applyFilter at h
  exact mem_of_mem_filterStep (mem_of_mem_filterStep (mem_of_mem_filterStep
    (mem_of_mem_filterStep (mem_of_mem_filterStep h))))

theorem supportsBinary_applyFilter {D : List Record} {spec : FilterSpec}
    (h : supportsBinary D) : supportsBinary (applyFilter D spec) :=
  fun r hr => h r (mem_of_mem_applyFilter hr)

theorem filterStep_comm (g1 g2 : Record → String) (p1 p2 : Option String)
    (l : List Record) :
    filterStep g1 p1 (filterStep g2 p2 l) = filterStep g2 p2 (filterStep g1 p1 l) := by
  cases p1 with
  | none => rfl
  | some v1 =>
    cases p2 with
    | none => rfl
    | some v2 =>
      by_cases h1 : v1 = "" <;> by_cases h2 : v2 = "" <;>
        simp only [filterStep, h1, h2, if_pos, if_neg, if_true, if_false, ite_true,
          ite_false, not_false_iff]
      exact List.filter_comm _ _ _

theorem filterStep_congr (get : Record → String) {p1 p2 : Option String}
    (l : List Record) (h : Option.map casefold p1 = Option.map casefold p2) :
    filterStep get p1 l = filterStep get p2 l := by
  cases p1 with
  | none =>
    cases p2 with
    | none => rfl
    | some v2 => simp at h
  | some v1 =>
    cases p2 with
    | none => simp at h
    | some v2 =>
      simp only [Option.map_some', Option.some.injEq] at h
      by_cases h1 : v1 = ""
      · have h2 : v2 = "" := by
          rw [← casefold_eq_empty_iff, ← h, casefold_eq_empty_iff]
          exact h1
        simp [filterStep, h1, h2]
      · have h2 : v2 ≠ "" := by
          intro he
          apply h1
          rw [← casefold_eq_empty_iff, h, casefold_eq_empty_iff]
          exact he
        simp only [filterStep, if_neg h1, if_neg h2, h]

/-! ### Grouping lemmas -/

theorem length_filter_eq_count (get : Record → String) (v : String)
    (D : List Record) :
    (D.filter (fun r => get r == v)).length = (D.map get).count v := by
  induction D with
  | nil => rfl
  | cons a l ih =>
    by_cases h : get a = v <;>
      simp [List.filter_cons, List.count_cons, h, ih]

theorem count_mkGroupEntry (df : List Record) (name : String)
    (get : Record → String) (v : String) :
    (mkGroupEntry df name get v).count = (df.filter (fun r => get r == v)).length :=
  rfl

theorem group_value_mkGroupEntry (df : List Record) (name : String)
    (get : Record → String) (v : String) :
    (mkGroupEntry df name get v).group_value = v :=
  rfl

theorem key_mkGroupEntry (df : List Record) (name : String)
    (get : Record → String) (v : String) :
    (mkGroupEntry df name get v).key = name :=
  rfl

theorem groupedEntries_count_sum (D : List Record) (name : String)
    (get : Record → String) :
    ((groupedEntries D name get).map GroupEntry.count).sum = D.length := by
  unfold groupedEntries
  rw [List.map_map]
  have hfun : (GroupEntry.count ∘ mkGroupEntry D name get) =
      fun v => (D.map get).count v := by
    funext v
    exact length_filter_eq_count get v D
  rw [hfun]
  rw [((List.perm_insertionSort _ _).map (fun v => (D.map get).count v)).sum_eq]
  rw [List.sum_map_count_dedup_eq_length, List.length_map]

theorem groupedEntries_group_values (D : List Record) (name : String)
    (get : Record → String) :
    List.Perm ((groupedEntries D name get).map GroupEntry.group_value)
      ((D.map get).dedup) := by
  unfold groupedEntries
  rw [List.map_map]
  have hfun : (GroupEntry.group_value ∘ mkGroupEntry D name get) = id := rfl
  rw [hfun, List.map_id]
  exact List.perm_insertionSort _ _

theorem groupedEntries_sorted (D : List Record) (name : String)
    (get : Record → String) :
    List.Sorted (fun e1 e2 => e1.group_value ≤ e2.group_value)
      (groupedEntries D name get) := by
  unfold groupedEntries
  exact List.Pairwise.map (mkGroupEntry D name get) (fun a b hab => hab)
    (List.sorted_insertionSort (· ≤ ·) ((D.map get).dedup))

theorem groupedEntries_keys (D : List Record) (name : String)
    (get : Record → String) :
    ∀ e ∈ groupedEntries D name get, e.key = name := by
  intro e he
  unfold groupedEntries at he
  rcases List.mem_map.mp he with ⟨v, _, rfl⟩
  rfl

/-! ### Claim theorems -/

/-- C1: `support_by` signals `NoMatchError` (HTTP 404) exactly when the
filtered subset is empty; on a non-empty subset it returns the subset size
and its support rate rounded to 3 decimals, and an ok result never has
count 0. -/
theorem support_by_noMatch_iff_empty (D : List Record) (spec : FilterSpec) :
    (support_by D spec =
        .error { status_code := 404, detail := "No respondents match the given filters." } ↔
      applyFilter D spec = []) ∧
    (applyFilter D spec ≠ [] →
      support_by D spec = .ok
        { count := (applyFilter D spec).length
          support_rate := round3 (calculate_support_rate (applyFilter D spec)) }) ∧
    (∀ res, support_by D spec = .ok res → res.count ≠ 0) := by
  refine ⟨?_, ?_, ?_⟩
  · by_cases h : applyFilter D spec = [] <;> simp [support_by, h]
  · intro h
    simp [support_by, h]
  · intro res hres
    simp only [support_by] at hres
    by_cases h : applyFilter D spec = []
    · rw [if_pos h] at hres
      exact absurd hres (by simp)
    · rw [if_neg h] at hres
      obtain rfl := Except.ok.inj hres
      intro h0
      exact h (List.length_eq_zero.mp h0)

/-- C1 witness: on the sample dataset, filtering by gender FEMALE leaves a
non-empty subset and `support_by` returns its size and rounded rate. -/
theorem support_by_noMatch_iff_empty_witness :
    applyFilter sampleD { gender := some "FEMALE" } ≠ [] ∧
    support_by sampleD { gender := some "FEMALE" } = .ok
      { count := (applyFilter sampleD { gender := some "FEMALE" }).length
        support_rate :=
          round3 (calculate_support_rate (applyFilter sampleD { gender := some "FEMALE" })) } :=
  ⟨by decide, (support_by_noMatch_iff_empty sampleD { gender := some "FEMALE" }).2.1 (by decide)⟩

/-- C2: `support_grouped` fails with HTTP 400 (`InvalidColumnError`) if and
only if the column is outside the allow-list; on an invalid column it never
returns a result list, and on a valid column it always returns the grouped
entries. -/
theorem support_grouped_invalid_iff (D : List Record) (c : String) :
    ((∃ e, support_grouped D c = .error e ∧ e.status_code = 400) ↔ c ∉ valid_columns) ∧
    (c ∉ valid_columns → ∀ entries, support_grouped D c ≠ .ok entries) ∧
    (c ∈ valid_columns → ∃ get, columnGet c = some get ∧
      support_grouped D c = .ok (groupedEntries D c get)) := by
  cases hc : columnGet c with
  | none =>
    have hv : c ∉ valid_columns := (columnGet_eq_none_iff c).mp hc
    refine ⟨⟨fun _ => hv, fun _ => ?_⟩, fun _ entries => ?_, fun hmem => absurd hmem hv⟩
    · exact ⟨{ status_code := 400, detail := "Invalid group_by. Must be one of the allowed columns." },
        by simp [support_grouped, hc], rfl⟩
    · simp [support_grouped, hc]
  | some get =>
    have hv : c ∈ valid_columns := by
      by_contra hmem
      exact absurd ((columnGet_eq_none_iff c).mpr hmem) (by simp [hc])
    refine ⟨⟨?_, fun hmem => absurd hv hmem⟩, fun hmem => absurd hv hmem,
      fun _ => ⟨get, rfl, by simp [support_grouped, hc]⟩⟩
    rintro ⟨e, he, -⟩
    simp [support_grouped, hc] at he

/-- C2 witness: grouping the sample dataset by zip_code is rejected with a
400 error and never returns entries; grouping by gender succeeds. -/
theorem support_grouped_invalid_iff_witness :
    ("zip_code" ∉ valid_columns ∧
      ∀ entries, support_grouped sampleD "zip_code" ≠ .ok entries) ∧
    ("gender" ∈ valid_columns ∧ ∃ get, columnGet "gender" = some get ∧
      support_grouped sampleD "gender" = .ok (groupedEntries sampleD "gender" get)) :=
  ⟨⟨by decide, (support_grouped_invalid_iff sampleD "zip_code").2.1 (by decide)⟩,
    ⟨by decide, (support_grouped_invalid_iff sampleD "gender").2.2 (by decide)⟩⟩

/-- C3 counterexample: a one-row dataset whose single respondent does not
support the policy has 0/1 indicators, yet `overall_support` returns
support_rate 0.0 with count 1, refuting "support_rate equals 0.0 exactly
when count equals 0". -/
theorem rate_zero_iff_count_zero_counterexample :
    supportsBinary [sampleF0] ∧
    (overall_support [sampleF0]).count ≠ 0 ∧
    (overall_support [sampleF0]).support_rate = 0 := by
  refine ⟨by decide, by decide, ?_⟩
  simp [overall_support, calculate_support_rate, sampleF0, sampleF, round3_zero]

/-- C3 (amended): for every dataset with 0/1 support indicators, every
AggregateResult produced by `overall_support` or `support_by` has
support_rate in the closed interval [0,1], and count = 0 forces
support_rate = 0 (the converse direction of the claimed iff fails: see the
counterexample); `support_by` ok-results moreover have count ≠ 0. -/
theorem support_rate_in_unit_interval (D : List Record) (h : supportsBinary D) :
    (0 ≤ (overall_support D).support_rate ∧ (overall_support D).support_rate ≤ 1 ∧
      ((overall_support D).count = 0 → (overall_support D).support_rate = 0)) ∧
    (∀ spec res, support_by D spec = .ok res →
      0 ≤ res.support_rate ∧ res.support_rate ≤ 1 ∧ res.count ≠ 0) := by
  constructor
  · refine ⟨round3_nonneg (calculate_support_rate_nonneg D h),
      round3_le_one (calculate_support_rate_le_one D h), fun h0 => ?_⟩
    have hD : D = [] := List.length_eq_zero.mp h0
    subst hD
    simp [overall_support, calculate_support_rate, round3_zero]
  · intro spec res hres
    simp only [support_by] at hres
    by_cases he : applyFilter D spec = []
    · rw [if_pos he] at hres
      exact absurd hres (by simp)
    · rw [if_neg he] at hres
      obtain rfl := Except.ok.inj hres
      have hsub : supportsBinary (applyFilter D spec) := supportsBinary_applyFilter h
      refine ⟨round3_nonneg (calculate_support_rate_nonneg _ hsub),
        round3_le_one (calculate_support_rate_le_one _ hsub), fun h0 => ?_⟩
      exact he (List.length_eq_zero.mp h0)

/-- C3 witness: the amended claim instantiated on the sample dataset. -/
theorem support_rate_in_unit_interval_witness :
    supportsBinary sampleD ∧
    ((0 ≤ (overall_support sampleD).support_rate ∧
        (overall_support sampleD).support_rate ≤ 1 ∧
        ((overall_support sampleD).count = 0 →
          (overall_support sampleD).support_rate = 0)) ∧
      (∀ spec res, support_by sampleD spec = .ok res →
        0 ≤ res.support_rate ∧ res.support_rate ≤ 1 ∧ res.count ≠ 0)) :=
  ⟨by decide, support_rate_in_unit_interval sampleD (by decide)⟩

/-- C6: `overall_support` returns count = |D| and support_rate = the
arithmetic mean of the 0/1 support indicator, rounded to 3 decimals (for
empty D both the code's guard and the rational convention 0/0 = 0 give 0). -/
theorem overall_support_spec (D : List Record) :
    (overall_support D).count = D.length ∧
    (overall_support D).support_rate =
      round3 ((D.map Record.policy_support).sum / (D.length : ℚ)) := by
  refine ⟨rfl, ?_⟩
  show round3 (calculate_support_rate D) = _
  unfold calculate_support_rate
  split
  · rename_i h
    subst h
    simp
  · rfl

/-- C6 witness: the statement instantiated on the sample dataset. -/
theorem overall_support_spec_witness :
    (overall_support sampleD).count = sampleD.length ∧
    (overall_support sampleD).support_rate =
      round3 ((sampleD.map Record.policy_support).sum / (sampleD.length : ℚ)) :=
  overall_support_spec sampleD

/-- C7: the rate of an empty record set is exactly 0; as a total function
into ℚ the embedded `calculate_support_rate` returns a value on every input
(the code never raises and never produces NaN). -/
theorem calculate_support_rate_nil_total :
    calculate_support_rate [] = 0 ∧
    ∀ rs : List Record, ∃ q : ℚ, calculate_support_rate rs = q :=
  ⟨rfl, fun rs => ⟨calculate_support_rate rs, rfl⟩⟩

/-- A filter parameter that Python truthiness treats as absent: `None` or
the empty string. -/
def inactiveParam (p : Option String) : Prop :=
  p = none ∨ p = some ""

instance (p : Option String) : Decidable (inactiveParam p) := by
  unfold inactiveParam
  infer_instance

theorem filterStep_inactive (get : Record → String) {p : Option String}
    (l : List Record) (h : inactiveParam p) : filterStep get p l = l := by
  rcases h with rfl | rfl <;> simp [filterStep]

/-- C4: filtering by gender and race in one spec equals applying the two
single-field filters sequentially, in either order (logical-AND
composition, order-independent). -/
theorem filter_and_composition (D : List Record) (g r : String) :
    (applyFilter D { gender := some g, race := some r } =
      applyFilter (applyFilter D { gender := some g }) { race := some r }) ∧
    (applyFilter D { gender := some g, race := some r } =
      applyFilter (applyFilter D { race := some r }) { gender := some g }) := by
  refine ⟨rfl, ?_⟩
  show filterStep Record.race (some r) (filterStep Record.gender (some g) D) =
    filterStep Record.gender (some g) (filterStep Record.race (some r) D)
  exact filterStep_comm Record.race Record.gender (some r) (some g) D

/-- C4 witness: the composition law instantiated on the sample dataset. -/
theorem filter_and_composition_witness :
    (applyFilter sampleD { gender := some "Female", race := some "Asian" } =
      applyFilter (applyFilter sampleD { gender := some "Female" }) { race := some "Asian" }) ∧
    (applyFilter sampleD { gender := some "Female", race := some "Asian" } =
      applyFilter (applyFilter sampleD { race := some "Asian" }) { gender := some "Female" }) :=
  filter_and_composition sampleD "Female" "Asian"

/-- C5: filtering is case-insensitive exact equality: a provided (non-empty)
filter value retains exactly the records whose lowercased attribute equals
the lowercased value, and two filter specs whose field values differ only in
letter case produce identical subsets. -/
theorem filter_case_insensitive :
    (∀ (D : List Record) (get : Record → String) (v : String), v ≠ "" →
      filterStep get (some v) D =
        D.filter (fun r => casefold (get r) == casefold v)) ∧
    (∀ (D : List Record) (s1 s2 : FilterSpec),
      s1.gender.map casefold = s2.gender.map casefold →
      s1.race.map casefold = s2.race.map casefold →
      s1.age_group.map casefold = s2.age_group.map casefold →
      s1.education.map casefold = s2.education.map casefold →
      s1.income.map casefold = s2.income.map casefold →
      applyFilter D s1 = applyFilter D s2) := by
  constructor
  · intro D get v hv
    simp [filterStep, hv]
  · intro D s1 s2 h1 h2 h3 h4 h5
    unfold applyFilter
    rw [filterStep_congr Record.gender D h1, filterStep_congr Record.race _ h2,
      filterStep_congr Record.age_group _ h3, filterStep_congr Record.education _ h4,
      filterStep_congr Record.income _ h5]

/-- C5 witness: gender filters female and FEMALE coincide on the sample
dataset, and the non-empty filter value FEMALE retains exactly the
casefold-equal records. -/
theorem filter_case_insensitive_witness :
    (("FEMALE" : String) ≠ "" ∧
      filterStep Record.gender (some "FEMALE") sampleD =
        sampleD.filter (fun r => casefold r.gender == casefold "FEMALE")) ∧
    applyFilter sampleD { gender := some "female" } =
      applyFilter sampleD { gender := some "FEMALE" } :=
  ⟨⟨by decide, filter_case_insensitive.1 sampleD Record.gender "FEMALE" (by decide)⟩,
    filter_case_insensitive.2 sampleD { gender := some "female" } { gender := some "FEMALE" }
      (by decide) (by decide) (by decide) (by decide) (by decide)⟩

/-- C8: grouping completeness: on any valid column the per-group counts sum
to the dataset size, with one entry per distinct observed value (the
embedded records always carry a string in every categorical attribute, so
the spec's non-null invariant holds by construction). -/
theorem grouped_counts_complete (D : List Record) (c : String)
    (get : Record → String) (hc : columnGet c = some get) :
    ∃ entries, support_grouped D c = .ok entries ∧
      (entries.map GroupEntry.count).sum = D.length ∧
      List.Perm (entries.map GroupEntry.group_value) ((D.map get).dedup) :=
  ⟨groupedEntries D c get, by simp [support_grouped, hc],
    groupedEntries_count_sum D c get, groupedEntries_group_values D c get⟩

/-- C8 witness: grouping the sample dataset by gender. -/
theorem grouped_counts_complete_witness :
    columnGet "gender" = some Record.gender ∧
    (∃ entries, support_grouped sampleD "gender" = .ok entries ∧
      (entries.map GroupEntry.count).sum = sampleD.length ∧
      List.Perm (entries.map GroupEntry.group_value)
        ((sampleD.map Record.gender).dedup)) :=
  ⟨rfl, grouped_counts_complete sampleD "gender" Record.gender rfl⟩

/-- C9: absent or empty filter parameters impose no constraint, so a fully
inactive filter spec returns the dataset unchanged and, when the dataset is
non-empty, `support_by` reports the full count. -/
theorem empty_filter_identity (D : List Record) (spec : FilterSpec)
    (hg : inactiveParam spec.gender) (hr : inactiveParam spec.race)
    (ha : inactiveParam spec.age_group) (he : inactiveParam spec.education)
    (hi : inactiveParam spec.income) :
    applyFilter D spec = D ∧
    (D ≠ [] → support_by D spec =
      .ok { count := D.length, support_rate := round3 (calculate_support_rate D) }) := by
  have hid : applyFilter D spec = D := by
    unfold applyFilter
    rw [filterStep_inactive _ _ hg, filterStep_inactive _ _ hr,
      filterStep_inactive _ _ ha, filterStep_inactive _ _ he,
      filterStep_inactive _ _ hi]
  refine ⟨hid, fun hD => ?_⟩
  simp only [support_by, hid]
  rw [if_neg hD]

/-- C9 witness: the empty filter spec on the sample dataset. -/
theorem empty_filter_identity_witness :
    inactiveParam (none : Option String) ∧ sampleD ≠ [] ∧
    (applyFilter sampleD {} = sampleD ∧
      support_by sampleD {} =
        .ok { count := sampleD.length, support_rate := round3 (calculate_support_rate sampleD) }) :=
  ⟨by decide, by decide,
    (empty_filter_identity sampleD {} (by decide) (by decide) (by decide)
        (by decide) (by decide)).1,
    (empty_filter_identity sampleD {} (by decide) (by decide) (by decide)
        (by decide) (by decide)).2 (by decide)⟩

/-- C10: on a valid column the grouped entries come in ascending sorted
order of group value (pandas groupby default sort), and every entry is
keyed by the grouping column's own name rather than a literal group_value
key. -/
theorem grouped_sorted_and_keyed (D : List Record) (c : String)
    (get : Record → String) (hc : columnGet c = some get) :
    ∃ entries, support_grouped D c = .ok entries ∧
      List.Sorted (fun e1 e2 => e1.group_value ≤ e2.group_value) entries ∧
      ∀ e ∈ entries, e.key = c :=
  ⟨groupedEntries D c get, by simp [support_grouped, hc],
    groupedEntries_sorted D c get, groupedEntries_keys D c get⟩

/-- C10 witness: grouping the sample dataset by race. -/
theorem grouped_sorted_and_keyed_witness :
    columnGet "race" = some Record.race ∧
    (∃ entries, support_grouped sampleD "race" = .ok entries ∧
      List.Sorted (fun e1 e2 => e1.group_value ≤ e2.group_value) entries ∧
      ∀ e ∈ entries, e.key = "race") :=
  ⟨rfl, grouped_sorted_and_keyed sampleD "race" Record.race rfl⟩
